import Mathlib

/-!
# Verification of the Synology Download Manager core

Shallow embedding of the two core pieces of the extension source:

* the `PathSelector` directory-tree browser (versioned fetches, stale-response
  discarding, tree updates), from `src/common/components/PathSelector.tsx`;
* the background coordination loop (settings-change listener, badge/icon
  computation, completion-notification diffing) and the context-menu bulk-add
  handler, from the background entry point concatenated into the same source
  file.

External collaborators (the API client transport, error-message translators,
task filtering) are parameters of the embedding.  The `DirectoryTree` module
itself (node type, child-state predicates, `recursivelyUpdateDirectoryTree`)
is imported by the source but its file is not part of the examined sources,
so it is modelled from the specification text.
-/

/-! ## DirectoryTree data model -/

mutual
/-- Modelled from the spec: `DirectoryTreeNode` is
`{ name, path, children: ChildState }` (spec §3); the source imports this
shape as `DirectoryTreeFile` from `./DirectoryTree`. -/
inductive DirectoryTreeFile where
  | mk (name : String) (path : String) (children : ChildState)

/-- Modelled from the spec: `ChildState` is one of `Unloaded`,
`Loading-failed { failureMessage }`, or `Loaded(sequence of nodes)` (spec §3);
the source represents these as the string `"unloaded"`, an object with a
`failureMessage` field, and an array. -/
inductive ChildState where
  | unloaded
  | failed (failureMessage : String)
  | loaded (children : List DirectoryTreeFile)
end

def DirectoryTreeFile.name : DirectoryTreeFile → String
  | .mk n _ _ => n

def DirectoryTreeFile.path : DirectoryTreeFile → String
  | .mk _ p _ => p

def DirectoryTreeFile.children : DirectoryTreeFile → ChildState
  | .mk _ _ c => c

/-- Modelled from the spec: predicate `isUnloaded` over `ChildState`
(spec §4.1), imported by the source as `isUnloadedChild`. -/
def isUnloadedChild : ChildState → Bool
  | .unloaded => true
  | _ => false

/-- Modelled from the spec: predicate `isError` over `ChildState`
(spec §4.1), imported by the source as `isErrorChild`. -/
def isErrorChild : ChildState → Bool
  | .failed _ => true
  | _ => false

/-- Modelled from the spec: predicate `isLoaded` over `ChildState`
(spec §4.1), imported by the source as `isLoadedChild`. -/
def isLoadedChild : ChildState → Bool
  | .loaded _ => true
  | _ => false

mutual
/-- Modelled from the spec: `update(tree, targetPath, newChildState)`
recursively searches for the node whose path equals `targetPath`; if found,
returns a new tree identical except that node's `children` is replaced; if
`targetPath` is not present, returns the tree unchanged (spec §4.1).  The
source imports this as `recursivelyUpdateDirectoryTree`. -/
def recursivelyUpdateDirectoryTree
    (t : DirectoryTreeFile) (targetPath : String) (upd : ChildState) :
    DirectoryTreeFile :=
  match t with
  | .mk name path children =>
    if path = targetPath then .mk name path upd
    else .mk name path (updateChildState children targetPath upd)

/-- Helper for `recursivelyUpdateDirectoryTree`: recurse through a
`ChildState` (only `loaded` children can contain the target). -/
def updateChildState (c : ChildState) (targetPath : String) (upd : ChildState) :
    ChildState :=
  match c with
  | .unloaded => .unloaded
  | .failed m => .failed m
  | .loaded files => .loaded (updateFileList files targetPath upd)

/-- Helper for `recursivelyUpdateDirectoryTree`: recurse through a list of
sibling nodes. -/
def updateFileList (l : List DirectoryTreeFile) (targetPath : String)
    (upd : ChildState) : List DirectoryTreeFile :=
  match l with
  | [] => []
  | f :: fs =>
      recursivelyUpdateDirectoryTree f targetPath upd ::
        updateFileList fs targetPath upd
end

mutual
/-- First node (in pre-order) of the tree whose path equals `target`. -/
def findNodeByPath (t : DirectoryTreeFile) (target : String) :
    Option DirectoryTreeFile :=
  match t with
  | .mk name path children =>
    if path = target then some (.mk name path children)
    else findInChildState children target

/-- Search a `ChildState` for a node with the given path. -/
def findInChildState (c : ChildState) (target : String) :
    Option DirectoryTreeFile :=
  match c with
  | .unloaded => none
  | .failed _ => none
  | .loaded files => findInFileList files target

/-- Search a list of sibling nodes for a node with the given path. -/
def findInFileList (l : List DirectoryTreeFile) (target : String) :
    Option DirectoryTreeFile :=
  match l with
  | [] => none
  | f :: fs =>
    match findNodeByPath f target with
    | some n => some n
    | none => findInFileList fs target
end

/-! ### Lemmas about the tree update -/

mutual
/-- If the target path is absent, the update leaves the tree unchanged. -/
theorem update_id_of_find_none (t : DirectoryTreeFile) (p : String)
    (u : ChildState) (h : findNodeByPath t p = none) :
    recursivelyUpdateDirectoryTree t p u = t := by
  cases t with
  | mk name path children =>
    rw [findNodeByPath] at h
    rw [recursivelyUpdateDirectoryTree]
    by_cases hp : path = p
    · simp [hp] at h
    · simp only [hp, if_false] at h ⊢
      rw [updateChildState_id_of_find_none children p u h]

/-- If the target path is absent from a child state, the update leaves it
unchanged. -/
theorem updateChildState_id_of_find_none (c : ChildState) (p : String)
    (u : ChildState) (h : findInChildState c p = none) :
    updateChildState c p u = c := by
  cases c with
  | unloaded => rw [updateChildState]
  | failed m => rw [updateChildState]
  | loaded files =>
    rw [findInChildState] at h
    rw [updateChildState]
    rw [updateFileList_id_of_find_none files p u h]

/-- If the target path is absent from a node list, the update leaves it
unchanged. -/
theorem updateFileList_id_of_find_none (l : List DirectoryTreeFile)
    (p : String) (u : ChildState) (h : findInFileList l p = none) :
    updateFileList l p u = l := by
  cases l with
  | nil => rw [updateFileList]
  | cons f fs =>
    rw [findInFileList] at h
    rw [updateFileList]
    cases hf : findNodeByPath f p with
    | some n => rw [hf] at h; exact absurd h (by simp)
    | none =>
      rw [hf] at h
      rw [update_id_of_find_none f p u hf,
        updateFileList_id_of_find_none fs p u h]
end

mutual
/-- Updating at a present path makes the node found at that path carry
exactly the new child state. -/
theorem find_update_of_find_some (t : DirectoryTreeFile) (p : String)
    (u : ChildState) (n : DirectoryTreeFile) (h : findNodeByPath t p = some n) :
    findNodeByPath (recursivelyUpdateDirectoryTree t p u) p
      = some (.mk n.name n.path u) := by
  cases t with
  | mk name path children =>
    rw [findNodeByPath] at h
    rw [recursivelyUpdateDirectoryTree]
    by_cases hp : path = p
    · simp only [hp, if_true] at h ⊢
      rw [findNodeByPath]
      simp only [if_pos rfl]
      cases h
      rfl
    · simp only [hp, if_false] at h ⊢
      rw [findNodeByPath]
      simp only [hp, if_false]
      exact findChildState_update_of_find_some children p u n h

/-- `ChildState` version of `find_update_of_find_some`. -/
theorem findChildState_update_of_find_some (c : ChildState) (p : String)
    (u : ChildState) (n : DirectoryTreeFile)
    (h : findInChildState c p = some n) :
    findInChildState (updateChildState c p u) p = some (.mk n.name n.path u) := by
  cases c with
  | unloaded => rw [findInChildState] at h; exact absurd h (by simp)
  | failed m => rw [findInChildState] at h; exact absurd h (by simp)
  | loaded files =>
    rw [findInChildState] at h
    rw [updateChildState, findInChildState]
    exact findFileList_update_of_find_some files p u n h

/-- Node-list version of `find_update_of_find_some`. -/
theorem findFileList_update_of_find_some (l : List DirectoryTreeFile)
    (p : String) (u : ChildState) (n : DirectoryTreeFile)
    (h : findInFileList l p = some n) :
    findInFileList (updateFileList l p u) p = some (.mk n.name n.path u) := by
  cases l with
  | nil => rw [findInFileList] at h; exact absurd h (by simp)
  | cons f fs =>
    rw [findInFileList] at h
    rw [updateFileList, findInFileList]
    cases hf : findNodeByPath f p with
    | some m =>
      rw [hf] at h
      injection h with h2
      subst h2
      rw [find_update_of_find_some f p u _ hf]
    | none =>
      rw [hf] at h
      rw [update_id_of_find_none f p u hf, hf]
      exact findFileList_update_of_find_some fs p u n h
end

/-! ## PathSelector controller (source lines 18–181)

The remote client, `ConnectionFailure` payloads, and the error-message
translators live outside the examined sources; the embedding is parametric
in them (`CF` is the connection-failure payload type, `emcf` embeds
`errorMessageFromConnectionFailure`, `emc` embeds `errorMessageFromCode`). -/

/-- `ROOT_PATH` constant from the source. -/
def ROOT_PATH : String := "/"

/-- An entry of a `list`/`list_share` payload: the fields of
`data.files[i]` / `data.shares[i]` the source reads. -/
structure FileEntry where
  name : String
  path : String
deriving DecidableEq, Repr

/-- `SynologyResponse<T> | ConnectionFailure`: a remote call resolves to a
connection-level failure, a protocol-level error (`success: false` with a
numeric code), or a success payload.  Failures are data, never exceptions. -/
inductive FetchResponse (CF : Type) (T : Type) where
  | connectionFailure (failure : CF)
  | protocolError (code : Nat)
  | success (data : T)

/-- `updateTreeWithResponse` (source lines 154–180): fold a resolved
response into the tree at `path`.  Connection failures and protocol errors
become `failed` child states with translated messages; success becomes the
parsed children. -/
def updateTreeWithResponse {CF T : Type} (emcf : CF → String)
    (emc : Nat → String → String) (tree : DirectoryTreeFile) (path : String)
    (response : FetchResponse CF T)
    (parseChildren : T → List DirectoryTreeFile) : DirectoryTreeFile :=
  match response with
  | .connectionFailure failure =>
      recursivelyUpdateDirectoryTree tree path (.failed (emcf failure))
  | .protocolError code =>
      recursivelyUpdateDirectoryTree tree path (.failed (emc code "FileStation"))
  | .success data =>
      recursivelyUpdateDirectoryTree tree path (.loaded (parseChildren data))

/-- The component state and instance fields of `PathSelector`:
`state.directoryTree` plus the private `requestVersionByPath` record
(an absent key reads as 0 via `|| 0`). -/
structure PathSelectorState where
  directoryTree : DirectoryTreeFile
  requestVersionByPath : String → Nat

/-- Initial `PathSelector` state: a root node at `/` with unloaded children
and no recorded request versions. -/
def initialPathSelectorState : PathSelectorState :=
  { directoryTree := .mk "/" ROOT_PATH .unloaded
    requestVersionByPath := fun _ => 0 }

/-- `this.requestVersionByPath[path] = (this.requestVersionByPath[path] || 0) + 1`:
allocate the next version for `path` and return it with the updated state. -/
def allocateVersion (st : PathSelectorState) (path : String) :
    Nat × PathSelectorState :=
  let v := st.requestVersionByPath path + 1
  (v, { st with
          requestVersionByPath := fun q =>
            if q = path then v else st.requestVersionByPath q })

/-- `data.files.map((f) => ({ path, name, children: "unloaded" }))`
(source lines 120–126). -/
def parseNestedChildren (files : List FileEntry) : List DirectoryTreeFile :=
  files.map fun f => .mk f.name f.path .unloaded

/-- `data.shares.map((d) => ({ name, path, children: "unloaded" }))`
(source lines 144–150). -/
def parseTopLevelShares (shares : List FileEntry) : List DirectoryTreeFile :=
  shares.map fun d => .mk d.name d.path .unloaded

/-- Outcome of the synchronous part of `loadNestedDirectory` (up to the
`await`): whether a fetch was issued, whether the programmer-error
diagnostic was logged, the stashed request version, and the state. -/
structure DispatchResult where
  fetchIssued : Bool
  loggedError : Bool
  stashedRequestVersion : Option Nat
  state : PathSelectorState

/-- Synchronous prefix of `loadNestedDirectory` (source lines 104–117):
if the root's children are not `Loaded`, log and do nothing; otherwise
allocate a version for `path` and issue the fetch. -/
def loadNestedDirectoryDispatch (st : PathSelectorState) (path : String) :
    DispatchResult :=
  if !(isLoadedChild st.directoryTree.children) then
    { fetchIssued := false, loggedError := true
      stashedRequestVersion := none, state := st }
  else
    let (v, st') := allocateVersion st path
    { fetchIssued := true, loggedError := false
      stashedRequestVersion := some v, state := st' }

/-- Synchronous prefix of `loadTopLevelDirectories` (source lines 131–141):
reset the root's children to `Unloaded`, then allocate a version for
`ROOT_PATH` and issue the `list_share` fetch. -/
def loadTopLevelDirectoriesDispatch (st : PathSelectorState) :
    Nat × PathSelectorState :=
  let st0 : PathSelectorState :=
    { st with
        directoryTree :=
          recursivelyUpdateDirectoryTree st.directoryTree ROOT_PATH .unloaded }
  allocateVersion st0 ROOT_PATH

/-- Continuation of `loadNestedDirectory` after the `await` (source lines
119–127): apply the response only if the stashed version still equals the
current version for `path`; otherwise the response is discarded. -/
def loadNestedDirectoryResolve {CF : Type} (emcf : CF → String)
    (emc : Nat → String → String) (st : PathSelectorState) (path : String)
    (stashedRequestVersion : Nat)
    (response : FetchResponse CF (List FileEntry)) : PathSelectorState :=
  if stashedRequestVersion = st.requestVersionByPath path then
    { st with
        directoryTree :=
          updateTreeWithResponse emcf emc st.directoryTree path response
            parseNestedChildren }
  else st

/-- Continuation of `loadTopLevelDirectories` after the `await` (source
lines 143–151): same version-checked application, at `ROOT_PATH`, with the
shares parser. -/
def loadTopLevelDirectoriesResolve {CF : Type} (emcf : CF → String)
    (emc : Nat → String → String) (st : PathSelectorState)
    (stashedRequestVersion : Nat)
    (response : FetchResponse CF (List FileEntry)) : PathSelectorState :=
  if stashedRequestVersion = st.requestVersionByPath ROOT_PATH then
    { st with
        directoryTree :=
          updateTreeWithResponse emcf emc st.directoryTree ROOT_PATH response
            parseTopLevelShares }
  else st

/-- Events of the single-threaded interleaving semantics: each event is one
synchronous turn of the controller (a dispatch prefix or a resolution
continuation). -/
inductive PSEvent (CF : Type) where
  | dispatchNested (path : String)
  | dispatchTopLevel
  | resolveNested (path : String) (stashedRequestVersion : Nat)
      (response : FetchResponse CF (List FileEntry))
  | resolveTopLevel (stashedRequestVersion : Nat)
      (response : FetchResponse CF (List FileEntry))

/-- One synchronous turn. -/
def stepPS {CF : Type} (emcf : CF → String) (emc : Nat → String → String) :
    PathSelectorState → PSEvent CF → PathSelectorState
  | st, .dispatchNested path => (loadNestedDirectoryDispatch st path).state
  | st, .dispatchTopLevel => (loadTopLevelDirectoriesDispatch st).2
  | st, .resolveNested path stashed r =>
      loadNestedDirectoryResolve emcf emc st path stashed r
  | st, .resolveTopLevel stashed r =>
      loadTopLevelDirectoriesResolve emcf emc st stashed r

/-- Run a sequence of synchronous turns. -/
def runPS {CF : Type} (emcf : CF → String) (emc : Nat → String → String) :
    PathSelectorState → List (PSEvent CF) → PathSelectorState
  | st, [] => st
  | st, e :: es => runPS emcf emc (stepPS emcf emc st e) es

/-! ### Version bookkeeping lemmas -/

theorem runPS_append {CF : Type} (emcf : CF → String)
    (emc : Nat → String → String) (st : PathSelectorState)
    (l1 l2 : List (PSEvent CF)) :
    runPS emcf emc st (l1 ++ l2) = runPS emcf emc (runPS emcf emc st l1) l2 := by
  induction l1 generalizing st with
  | nil => rfl
  | cons e es ih =>
    simp only [List.cons_append, runPS]
    exact ih _

theorem allocateVersion_version_le (st : PathSelectorState) (path q : String) :
    st.requestVersionByPath q ≤ (allocateVersion st path).2.requestVersionByPath q := by
  simp only [allocateVersion]
  by_cases h : q = path
  · subst h; simp
  · simp [h]

/-- No synchronous turn ever decreases a path's request version. -/
theorem stepPS_version_le {CF : Type} (emcf : CF → String)
    (emc : Nat → String → String) (st : PathSelectorState) (e : PSEvent CF)
    (q : String) :
    st.requestVersionByPath q ≤ (stepPS emcf emc st e).requestVersionByPath q := by
  cases e with
  | dispatchNested path =>
    simp only [stepPS, loadNestedDirectoryDispatch]
    by_cases h : isLoadedChild st.directoryTree.children = true
    · simp only [h, Bool.not_true, Bool.false_eq_true, if_false]
      exact allocateVersion_version_le st path q
    · simp only [Bool.not_eq_true] at h
      simp [h]
  | dispatchTopLevel =>
    simp only [stepPS, loadTopLevelDirectoriesDispatch]
    exact allocateVersion_version_le _ ROOT_PATH q
  | resolveNested path stashed r =>
    simp only [stepPS, loadNestedDirectoryResolve]
    by_cases h : stashed = st.requestVersionByPath path <;> simp [h]
  | resolveTopLevel stashed r =>
    simp only [stepPS, loadTopLevelDirectoriesResolve]
    by_cases h : stashed = st.requestVersionByPath ROOT_PATH <;> simp [h]

/-- Request versions are monotone along any run. -/
theorem runPS_version_le {CF : Type} (emcf : CF → String)
    (emc : Nat → String → String) (st : PathSelectorState)
    (evs : List (PSEvent CF)) (q : String) :
    st.requestVersionByPath q ≤ (runPS emcf emc st evs).requestVersionByPath q := by
  induction evs generalizing st with
  | nil => exact Nat.le_refl _
  | cons e es ih =>
    exact Nat.le_trans (stepPS_version_le emcf emc st e q) (ih _)

/-! ## Claim C1 -/

/-- C1: for every path `p`, a resolving directory-listing fetch is applied
only if the version recorded at dispatch time equals the current version for
`p`; and if any later turn allocated a newer version for `p` (a newer request
was issued), the late resolution — nested or top-level — causes no state
mutation at all. -/
theorem c1_superseded_response_never_applied {CF : Type} (emcf : CF → String)
    (emc : Nat → String → String) (st1 : PathSelectorState) (p : String)
    (v : Nat) (hv : st1.requestVersionByPath p = v) (evs1 : List (PSEvent CF))
    (e : PSEvent CF) (evs2 : List (PSEvent CF))
    (hnewer : (runPS emcf emc st1 evs1).requestVersionByPath p
        < (stepPS emcf emc (runPS emcf emc st1 evs1) e).requestVersionByPath p)
    (r : FetchResponse CF (List FileEntry)) :
    (∀ (st : PathSelectorState) (w : Nat), w ≠ st.requestVersionByPath p →
        stepPS emcf emc st (.resolveNested p w r) = st)
    ∧ stepPS emcf emc (runPS emcf emc st1 (evs1 ++ e :: evs2))
        (.resolveNested p v r) = runPS emcf emc st1 (evs1 ++ e :: evs2)
    ∧ (p = ROOT_PATH →
        stepPS emcf emc (runPS emcf emc st1 (evs1 ++ e :: evs2))
          (.resolveTopLevel v r) = runPS emcf emc st1 (evs1 ++ e :: evs2)) := by
  have hdiscard : ∀ (st : PathSelectorState) (w : Nat),
      w ≠ st.requestVersionByPath p →
      stepPS emcf emc st (.resolveNested p w r) = st := by
    intro st w hw
    simp [stepPS, loadNestedDirectoryResolve, hw]
  have hsplit : runPS emcf emc st1 (evs1 ++ e :: evs2)
      = runPS emcf emc (stepPS emcf emc (runPS emcf emc st1 evs1) e) evs2 := by
    rw [runPS_append]; rfl
  have hlt : v < (runPS emcf emc st1 (evs1 ++ e :: evs2)).requestVersionByPath p := by
    rw [hsplit]
    have h1 := runPS_version_le emcf emc st1 evs1 p
    have h2 := runPS_version_le emcf emc
      (stepPS emcf emc (runPS emcf emc st1 evs1) e) evs2 p
    omega
  refine ⟨hdiscard, hdiscard _ v (Nat.ne_of_lt hlt), ?_⟩
  intro hp
  subst hp
  simp only [stepPS, loadTopLevelDirectoriesResolve]
  rw [if_neg (Nat.ne_of_lt hlt)]

/-- Witness for C1: start from the initial state, dispatch the top-level
fetch (version 1 for `/`), then dispatch it again (version 2); the stale
version-1 resolution leaves the state untouched. -/
theorem c1_superseded_response_never_applied_witness :
    (loadTopLevelDirectoriesDispatch initialPathSelectorState).2.requestVersionByPath
        ROOT_PATH = 1
    ∧ (runPS (fun _ : Unit => "cf") (fun _ _ => "err")
          (loadTopLevelDirectoriesDispatch initialPathSelectorState).2
          []).requestVersionByPath ROOT_PATH
      < (stepPS (fun _ : Unit => "cf") (fun _ _ => "err")
          (runPS (fun _ : Unit => "cf") (fun _ _ => "err")
            (loadTopLevelDirectoriesDispatch initialPathSelectorState).2 [])
          .dispatchTopLevel).requestVersionByPath ROOT_PATH
    ∧ stepPS (fun _ : Unit => "cf") (fun _ _ => "err")
        (runPS (fun _ : Unit => "cf") (fun _ _ => "err")
          (loadTopLevelDirectoriesDispatch initialPathSelectorState).2
          ([] ++ .dispatchTopLevel :: []))
        (.resolveTopLevel 1 (.success [⟨"photo", "/photo"⟩]))
      = runPS (fun _ : Unit => "cf") (fun _ _ => "err")
          (loadTopLevelDirectoriesDispatch initialPathSelectorState).2
          ([] ++ .dispatchTopLevel :: []) :=
  ⟨by decide, by decide,
    (c1_superseded_response_never_applied (fun _ : Unit => "cf")
      (fun _ _ => "err") (loadTopLevelDirectoriesDispatch initialPathSelectorState).2
      ROOT_PATH 1 (by decide) [] .dispatchTopLevel [] (by decide)
      (.success [⟨"photo", "/photo"⟩])).2.2 rfl⟩

/-! ## Claim C5 -/

/-- C5: calling `loadNestedDirectory(p)` while the root's children are not
`Loaded` issues no fetch, allocates no version, changes no state, and (being
a total function) does not throw — it only logs the diagnostic; when the
root's children are `Loaded` it allocates the next version for `p`, issues
the fetch, and leaves the tree unchanged until resolution. -/
theorem c5_nested_load_requires_loaded_root (st : PathSelectorState)
    (path : String) :
    (isLoadedChild st.directoryTree.children = false →
      loadNestedDirectoryDispatch st path =
        { fetchIssued := false, loggedError := true
          stashedRequestVersion := none, state := st })
    ∧ (isLoadedChild st.directoryTree.children = true →
      loadNestedDirectoryDispatch st path =
        { fetchIssued := true, loggedError := false
          stashedRequestVersion := some (st.requestVersionByPath path + 1)
          state :=
            { directoryTree := st.directoryTree
              requestVersionByPath := fun q =>
                if q = path then st.requestVersionByPath path + 1
                else st.requestVersionByPath q } }) := by
  constructor
  · intro h
    simp [loadNestedDirectoryDispatch, h]
  · intro h
    simp [loadNestedDirectoryDispatch, h, allocateVersion]

/-- Witness for C5: on the initial (unloaded-root) state the call is a
logged no-op; on a loaded-root state it allocates version 1 for the path. -/
theorem c5_nested_load_requires_loaded_root_witness :
    isLoadedChild initialPathSelectorState.directoryTree.children = false
    ∧ loadNestedDirectoryDispatch initialPathSelectorState "/photo" =
        { fetchIssued := false, loggedError := true
          stashedRequestVersion := none, state := initialPathSelectorState }
    ∧ isLoadedChild (DirectoryTreeFile.mk "/" "/"
        (.loaded [.mk "photo" "/photo" .unloaded])).children = true
    ∧ loadNestedDirectoryDispatch
        { directoryTree := .mk "/" "/" (.loaded [.mk "photo" "/photo" .unloaded])
          requestVersionByPath := fun _ => 0 } "/photo" =
        { fetchIssued := true, loggedError := false
          stashedRequestVersion := some 1
          state :=
            { directoryTree := .mk "/" "/" (.loaded [.mk "photo" "/photo" .unloaded])
              requestVersionByPath := fun q => if q = "/photo" then 1 else 0 } } :=
  ⟨rfl,
    (c5_nested_load_requires_loaded_root initialPathSelectorState "/photo").1 rfl,
    rfl,
    (c5_nested_load_requires_loaded_root
      { directoryTree := .mk "/" "/" (.loaded [.mk "photo" "/photo" .unloaded])
        requestVersionByPath := fun _ => 0 } "/photo").2 rfl⟩

/-! ## Subscription lifecycle (source lines 75–102)

Clients are identified by id; `registered` is the multiset of subscriptions
currently registered at clients (one entry per `onSettingsChange`
registration), and `unsubscribeCallback` mirrors the private field: the
client id the stored callback would cancel at. -/

/-- Observable subscription state of a `PathSelector` instance. -/
structure SubscriptionState where
  registered : List Nat
  unsubscribeCallback : Option Nat
deriving DecidableEq, Repr

/-- Before mounting: nothing registered, no stored callback. -/
def initialSubscriptionState : SubscriptionState :=
  { registered := [], unsubscribeCallback := none }

/-- `unsubscribeFromClient` (source lines 75–80): if a callback is stored,
invoke it (cancelling that registration) and clear the field. -/
def unsubscribeFromClient (s : SubscriptionState) : SubscriptionState :=
  match s.unsubscribeCallback with
  | some c => { registered := s.registered.erase c, unsubscribeCallback := none }
  | none => s

/-- `subscribeToClient(client)` (source lines 82–85): release any previous
subscription, then register with `client` and store the new callback. -/
def subscribeToClient (s : SubscriptionState) (client : Nat) :
    SubscriptionState :=
  let s1 := unsubscribeFromClient s
  { registered := client :: s1.registered, unsubscribeCallback := some client }

/-- `componentDidMount` (source lines 87–90), subscription part. -/
def componentDidMount (s : SubscriptionState) (propsClient : Nat) :
    SubscriptionState :=
  subscribeToClient s propsClient

/-- `componentWillUnmount` (source lines 92–94). -/
def componentWillUnmount (s : SubscriptionState) : SubscriptionState :=
  unsubscribeFromClient s

/-- `componentWillReceiveProps` (source lines 96–102), subscription part:
on a client change the source unsubscribes and then calls
`this.subscribeToClient(this.props.client)` — the OLD client. -/
def componentWillReceiveProps (s : SubscriptionState)
    (propsClient nextClient : Nat) : SubscriptionState :=
  if propsClient ≠ nextClient then
    subscribeToClient (unsubscribeFromClient s) propsClient
  else s

/-! ## Claim C3 -/

/-- C3 (code bug): mount with client 0, then receive new client 1.  The
controller ends up holding exactly one subscription, but it is attached to
the old client 0, not to the new client 1 as the claim requires; unmounting
does release it. -/
theorem c3_resubscribe_targets_old_client :
    componentWillReceiveProps (componentDidMount initialSubscriptionState 0) 0 1
      = { registered := [0], unsubscribeCallback := some 0 }
    ∧ componentWillReceiveProps (componentDidMount initialSubscriptionState 0) 0 1
      ≠ { registered := [1], unsubscribeCallback := some 1 }
    ∧ componentWillUnmount
        (componentWillReceiveProps (componentDidMount initialSubscriptionState 0) 0 1)
      = { registered := [], unsubscribeCallback := none } := by
  refine ⟨rfl, by decide, rfl⟩

/-! ## Background coordination loop (source lines 182–420)

The persisted-settings store, the platform badge/notification APIs and the
network actions (`pollTasks`, `clearCachedTasks`) are external; their
invocations are recorded as effect data.  `VT` is the type of the
`visibleTasks` filter settings and `filterTasks` (from `common/filtering`)
is a parameter of the environment, as is `getHostUrl`. -/

/-- A task record (`Task` in the source; renamed here to avoid Lean's core
`Task`), with the fields the background loop reads.  Statuses are the raw
status strings (the loop compares against `"finished"` and `"seeding"`). -/
structure DownloadTask where
  id : String
  title : String
  status : String
deriving DecidableEq, Repr

/-- `NotificationSettings` from `common/state`, with the fields the loop
reads. -/
structure NotificationSettings where
  enableFeedbackNotifications : Bool
  enableCompletionNotifications : Bool
  completionPollingInterval : Nat
deriving DecidableEq, Repr

/-- `settings.badgeDisplayType`: the two recognized display modes; the
source's `assertNever` else-branch is the unreachable third case of this
exhaustive type. -/
inductive BadgeDisplayType where
  | total
  | filtered
deriving DecidableEq, Repr

/-- Connection settings, with the fields the loop reads (plus the fields
`getHostUrl` may consume). -/
structure ConnectionSettings where
  protocol : String
  hostname : String
  port : Nat
  username : String
  password : String
deriving DecidableEq, Repr

/-- The slice of `storedState.settings` the loop reads. -/
structure Settings (VT : Type) where
  connection : ConnectionSettings
  visibleTasks : VT
  notifications : NotificationSettings
  badgeDisplayType : BadgeDisplayType

/-- The slice of the persisted `storedState` the loop reads. -/
structure StoredState (VT : Type) where
  settings : Settings VT
  tasks : List DownloadTask
  taskFetchFailureReason : Option String
  tasksLastCompletedFetchTimestamp : Option Nat

/-- The settings object passed to `api.updateSettings` (source lines
315–320). -/
structure ApiSettings where
  baseUrl : String
  account : String
  passwd : String
  session : String
deriving DecidableEq, Repr

/-- The API client's own "did configuration change" signal: `updateSettings`
applies the new settings and reports whether they differ from the currently
applied ones (`none` models the initial `new ApiClient({})`). -/
def updateSettings (applied : Option ApiSettings) (s : ApiSettings) :
    Bool × Option ApiSettings :=
  if applied = some s then (false, applied) else (true, some s)

/-- External collaborators consumed by the loop. -/
structure BackgroundEnv (VT : Type) where
  getHostUrl : ConnectionSettings → String
  filterTasks : List DownloadTask → VT → List DownloadTask

/-- The argument object of the `api.updateSettings` call (source lines
315–320). -/
def apiSettingsOf {VT : Type} (env : BackgroundEnv VT) (s : StoredState VT) :
    ApiSettings :=
  { baseUrl := env.getHostUrl s.settings.connection
    account := s.settings.connection.username
    passwd := s.settings.connection.password
    session := "DownloadStation" }

/-- The background script's module-level mutable state (source lines
202–214). -/
structure BackgroundState where
  apiSettings : Option ApiSettings
  finishedTaskIds : Option (List String)
  lastNotificationSettings : Option NotificationSettings
  notificationIntervalSeconds : Option Nat
  didInitializeSettings : Bool
  showNonErrorNotifications : Bool
deriving DecidableEq, Repr

/-- Initial module-level state (source lines 202–214). -/
def initialBackgroundState : BackgroundState :=
  { apiSettings := none
    finishedTaskIds := none
    lastNotificationSettings := none
    notificationIntervalSeconds := none
    didInitializeSettings := false
    showNonErrorNotifications := true }

/-- Which browser-action icon set is rendered. -/
inductive IconKind where
  | normal
  | disabled
deriving DecidableEq, Repr

/-- The browser-action renderings performed by one listener run (source
lines 353–395). -/
structure BadgeEffects where
  icon : IconKind
  badgeText : String
  badgeColor : List Nat
deriving DecidableEq, Repr

/-- The observable side effects of one listener run. -/
structure StepEffects where
  reconfiguredClient : Bool
  clearedCachedTasks : Bool
  polledAfterCacheClear : Bool
  clearedNotificationInterval : Bool
  startedNotificationIntervalSeconds : Option Nat
  badge : BadgeEffects
  completionNotifications : List (String × String)
deriving DecidableEq, Repr

/-- Guard of the completion-notification block (source lines 397–401):
last completed fetch timestamp present, strictly newer than process start,
and no fetch failure. -/
def completionGuard {VT : Type} (startTime : Nat) (s : StoredState VT) : Bool :=
  match s.tasksLastCompletedFetchTimestamp with
  | some ts => decide (ts > startTime) && decide (s.taskFetchFailureReason = none)
  | none => false

/-- Ids of the tasks currently in a finished-or-seeding status (source
lines 402–404). -/
def finishedOrSeedingIds (tasks : List DownloadTask) : List String :=
  (tasks.filter fun t => t.status == "finished" || t.status == "seeding").map DownloadTask.id

/-- Badge/icon block (source lines 353–395). -/
def badgeOf {VT : Type} (env : BackgroundEnv VT) (s : StoredState VT) :
    BadgeEffects :=
  if s.taskFetchFailureReason.isSome then
    { icon := .disabled, badgeText := "", badgeColor := [217, 0, 0, 255] }
  else
    let taskCount :=
      match s.settings.badgeDisplayType with
      | .total => s.tasks.length
      | .filtered => (env.filterTasks s.tasks s.settings.visibleTasks).length
    { icon := .normal
      badgeText := if taskCount = 0 then "" else toString taskCount
      badgeColor := [0, 217, 0, 255] }

/-- Completion-notification block (source lines 397–417): the notifications
fired (task id paired with the notified title) and the new stored
finished-id set. -/
def completionNotificationStep {VT : Type} (startTime : Nat)
    (finishedTaskIds : Option (List String)) (s : StoredState VT) :
    List (String × String) × Option (List String) :=
  if completionGuard startTime s then
    let updatedFinishedTaskIds := finishedOrSeedingIds s.tasks
    let notifs :=
      match finishedTaskIds with
      | some prior =>
        if s.settings.notifications.enableCompletionNotifications then
          (updatedFinishedTaskIds.filter fun i => !prior.contains i).map
            fun i =>
              (i, ((s.tasks.find? fun t => t.id == i).map DownloadTask.title).getD "")
        else []
      | none => []
    (notifs, some updatedFinishedTaskIds)
  else ([], finishedTaskIds)

/-- One run of the `onStoredStateChange` listener (source lines 314–417):
the emitted side effects and the updated module-level state. -/
def onStoredStateChangeStep {VT : Type} (env : BackgroundEnv VT)
    (startTime : Nat) (bg : BackgroundState) (storedState : StoredState VT) :
    StepEffects × BackgroundState :=
  let didUpdateSettings :=
    (updateSettings bg.apiSettings (apiSettingsOf env storedState)).1
  let newApiSettings :=
    (updateSettings bg.apiSettings (apiSettingsOf env storedState)).2
  let didInitializeSettings' :=
    if didUpdateSettings then true else bg.didInitializeSettings
  let notifChanged :=
    decide (some storedState.settings.notifications ≠ bg.lastNotificationSettings)
  let lastNotificationSettings' :=
    if notifChanged then some storedState.settings.notifications
    else bg.lastNotificationSettings
  let notificationIntervalSeconds' :=
    if notifChanged then
      (if storedState.settings.notifications.enableCompletionNotifications then
        some storedState.settings.notifications.completionPollingInterval
      else none)
    else bg.notificationIntervalSeconds
  ({ reconfiguredClient := didUpdateSettings
     clearedCachedTasks := didUpdateSettings
     polledAfterCacheClear := didUpdateSettings && bg.didInitializeSettings
     clearedNotificationInterval := notifChanged
     startedNotificationIntervalSeconds :=
       if notifChanged
           && storedState.settings.notifications.enableCompletionNotifications then
         some storedState.settings.notifications.completionPollingInterval
       else none
     badge := badgeOf env storedState
     completionNotifications :=
       (completionNotificationStep startTime bg.finishedTaskIds storedState).1 }
   , { apiSettings := newApiSettings
       finishedTaskIds :=
         (completionNotificationStep startTime bg.finishedTaskIds storedState).2
       lastNotificationSettings := lastNotificationSettings'
       notificationIntervalSeconds := notificationIntervalSeconds'
       didInitializeSettings := didInitializeSettings'
       showNonErrorNotifications :=
         storedState.settings.notifications.enableFeedbackNotifications })

/-- Run the listener over a sequence of emitted snapshots. -/
def runBackground {VT : Type} (env : BackgroundEnv VT) (startTime : Nat) :
    BackgroundState → List (StoredState VT) → BackgroundState
  | bg, [] => bg
  | bg, s :: rest =>
      runBackground env startTime (onStoredStateChangeStep env startTime bg s).2 rest

/-- The new connection settings differ from the applied client
configuration. -/
def configDiffers {VT : Type} (env : BackgroundEnv VT) (bg : BackgroundState)
    (s : StoredState VT) : Prop :=
  bg.apiSettings ≠ some (apiSettingsOf env s)

/-! ### Reconfiguration lemmas -/

theorem updateSettings_fst_eq_true (a : Option ApiSettings) (s : ApiSettings) :
    (updateSettings a s).1 = true ↔ a ≠ some s := by
  simp only [updateSettings]
  split_ifs with h <;> simp [h]

theorem step_didInit_of_didInit {VT : Type} (env : BackgroundEnv VT) (t : Nat)
    (bg : BackgroundState) (s : StoredState VT)
    (h : bg.didInitializeSettings = true) :
    (onStoredStateChangeStep env t bg s).2.didInitializeSettings = true := by
  simp only [onStoredStateChangeStep]
  split_ifs <;> simp [h]

theorem step_didInit_of_differs {VT : Type} (env : BackgroundEnv VT) (t : Nat)
    (bg : BackgroundState) (s : StoredState VT) (h : configDiffers env bg s) :
    (onStoredStateChangeStep env t bg s).2.didInitializeSettings = true := by
  have hu : (updateSettings bg.apiSettings (apiSettingsOf env s)).1 = true :=
    (updateSettings_fst_eq_true _ _).2 h
  simp [onStoredStateChangeStep, hu]

theorem runBackground_didInit_mono {VT : Type} (env : BackgroundEnv VT)
    (t : Nat) (bg : BackgroundState) (l : List (StoredState VT))
    (h : bg.didInitializeSettings = true) :
    (runBackground env t bg l).didInitializeSettings = true := by
  induction l generalizing bg with
  | nil => exact h
  | cons s rest ih =>
    exact ih _ (step_didInit_of_didInit env t bg s h)

/-- After any nonempty snapshot sequence from the initial state, the
`didInitializeSettings` flag is set: the very first snapshot always differs
from the unconfigured client. -/
theorem runBackground_init_didInit {VT : Type} (env : BackgroundEnv VT)
    (t : Nat) (pre : List (StoredState VT)) (hne : pre ≠ []) :
    (runBackground env t initialBackgroundState pre).didInitializeSettings
      = true := by
  cases pre with
  | nil => exact absurd rfl hne
  | cons s rest =>
    exact runBackground_didInit_mono env t _ rest
      (step_didInit_of_differs env t initialBackgroundState s
        (by simp [configDiffers, initialBackgroundState]))

/-! ## Claim C4 -/

/-- C4: on every snapshot whose connection settings differ from the applied
client configuration, the client is reconfigured (the new configuration is
applied) and the cached task data invalidated; on the very first snapshot
this happens with no re-poll; on every later differing snapshot an immediate
re-poll is triggered after the cache invalidation; and a non-differing
snapshot triggers none of these effects. -/
theorem c4_reconfigure_invalidate_and_repoll {VT : Type}
    (env : BackgroundEnv VT) (t : Nat) (pre : List (StoredState VT))
    (s : StoredState VT) :
    (configDiffers env (runBackground env t initialBackgroundState pre) s →
      (onStoredStateChangeStep env t (runBackground env t initialBackgroundState pre) s).1.reconfiguredClient = true
      ∧ (onStoredStateChangeStep env t (runBackground env t initialBackgroundState pre) s).1.clearedCachedTasks = true
      ∧ (onStoredStateChangeStep env t (runBackground env t initialBackgroundState pre) s).2.apiSettings
          = some (apiSettingsOf env s))
    ∧ (¬ configDiffers env (runBackground env t initialBackgroundState pre) s →
      (onStoredStateChangeStep env t (runBackground env t initialBackgroundState pre) s).1.reconfiguredClient = false
      ∧ (onStoredStateChangeStep env t (runBackground env t initialBackgroundState pre) s).1.clearedCachedTasks = false
      ∧ (onStoredStateChangeStep env t (runBackground env t initialBackgroundState pre) s).1.polledAfterCacheClear = false)
    ∧ (pre = [] →
      configDiffers env (runBackground env t initialBackgroundState pre) s
      ∧ (onStoredStateChangeStep env t (runBackground env t initialBackgroundState pre) s).1.polledAfterCacheClear = false)
    ∧ (pre ≠ [] →
      configDiffers env (runBackground env t initialBackgroundState pre) s →
      (onStoredStateChangeStep env t (runBackground env t initialBackgroundState pre) s).1.polledAfterCacheClear = true) := by
  refine ⟨?_, ?_, ?_, ?_⟩
  · intro h
    have hu : (updateSettings (runBackground env t initialBackgroundState pre).apiSettings
        (apiSettingsOf env s)).1 = true := (updateSettings_fst_eq_true _ _).2 h
    refine ⟨by simp [onStoredStateChangeStep, hu], by simp [onStoredStateChangeStep, hu], ?_⟩
    simp only [onStoredStateChangeStep, updateSettings]
    rw [if_neg h]
  · intro h
    rw [configDiffers, not_not] at h
    refine ⟨?_, ?_, ?_⟩ <;> simp [onStoredStateChangeStep, updateSettings, h]
  · intro hpre
    subst hpre
    refine ⟨by simp [configDiffers, runBackground, initialBackgroundState], ?_⟩
    simp [onStoredStateChangeStep, runBackground, initialBackgroundState]
  · intro hne h
    have hu : (updateSettings (runBackground env t initialBackgroundState pre).apiSettings
        (apiSettingsOf env s)).1 = true := (updateSettings_fst_eq_true _ _).2 h
    simp [onStoredStateChangeStep, hu, runBackground_init_didInit env t pre hne]

/-- Concrete environment for witnesses: trivial visible-task filter, host
url read off the connection's hostname. -/
def unitEnv : BackgroundEnv Unit :=
  { getHostUrl := fun c => c.hostname
    filterTasks := fun ts _ => ts }

/-- A concrete first snapshot. -/
def sampleStored : StoredState Unit :=
  { settings :=
      { connection :=
          { protocol := "http", hostname := "nas.local", port := 5000
            username := "admin", password := "hunter2" }
        visibleTasks := ()
        notifications :=
          { enableFeedbackNotifications := true
            enableCompletionNotifications := true
            completionPollingInterval := 60 }
        badgeDisplayType := .total }
    tasks := []
    taskFetchFailureReason := none
    tasksLastCompletedFetchTimestamp := none }

/-- A concrete second snapshot with different connection settings. -/
def sampleStored2 : StoredState Unit :=
  { sampleStored with
      settings :=
        { sampleStored.settings with
            connection :=
              { sampleStored.settings.connection with hostname := "nas2.local" } } }

/-- Witness for C4: the very first snapshot differs, reconfigures, clears
the cache and does not poll; a second, differing snapshot does poll. -/
theorem c4_reconfigure_invalidate_and_repoll_witness :
    configDiffers unitEnv (runBackground unitEnv 0 initialBackgroundState []) sampleStored
    ∧ (onStoredStateChangeStep unitEnv 0
        (runBackground unitEnv 0 initialBackgroundState []) sampleStored).1.reconfiguredClient = true
    ∧ (onStoredStateChangeStep unitEnv 0
        (runBackground unitEnv 0 initialBackgroundState []) sampleStored).1.clearedCachedTasks = true
    ∧ (onStoredStateChangeStep unitEnv 0
        (runBackground unitEnv 0 initialBackgroundState []) sampleStored).1.polledAfterCacheClear = false
    ∧ ([sampleStored] ≠ ([] : List (StoredState Unit)))
    ∧ configDiffers unitEnv (runBackground unitEnv 0 initialBackgroundState [sampleStored]) sampleStored2
    ∧ (onStoredStateChangeStep unitEnv 0
        (runBackground unitEnv 0 initialBackgroundState [sampleStored]) sampleStored2).1.polledAfterCacheClear = true := by
  have h1 := c4_reconfigure_invalidate_and_repoll unitEnv 0 [] sampleStored
  have h2 := c4_reconfigure_invalidate_and_repoll unitEnv 0 [sampleStored] sampleStored2
  have hd1 : configDiffers unitEnv (runBackground unitEnv 0 initialBackgroundState []) sampleStored :=
    (h1.2.2.1 rfl).1
  have hd2 : configDiffers unitEnv
      (runBackground unitEnv 0 initialBackgroundState [sampleStored]) sampleStored2 := by
    simp only [configDiffers]
    decide
  exact ⟨hd1, (h1.1 hd1).1, (h1.1 hd1).2.1, (h1.2.2.1 rfl).2, by simp,
    hd2, h2.2.2.2 (by simp) hd2⟩

/-! ### Completion-notification lemmas -/

theorem finishedOrSeedingIds_nodup (tasks : List DownloadTask)
    (hnd : (tasks.map DownloadTask.id).Nodup) :
    (finishedOrSeedingIds tasks).Nodup := by
  have hsub : List.Sublist (finishedOrSeedingIds tasks) (tasks.map DownloadTask.id) := by
    simpa [finishedOrSeedingIds] using
      (List.filter_sublist (l := tasks)
        (p := fun t => t.status == "finished" || t.status == "seeding")).map
        DownloadTask.id
  exact hnd.sublist hsub

/-- Counting occurrences in the new-minus-prior id list: one per genuinely
new finished id, zero otherwise, provided task ids are unique. -/
theorem count_new_finished (tasks : List DownloadTask) (prior : List String)
    (hnd : (tasks.map DownloadTask.id).Nodup) (i : String) :
    ((finishedOrSeedingIds tasks).filter fun x => !prior.contains x).count i
      = if i ∈ finishedOrSeedingIds tasks ∧ i ∉ prior then 1 else 0 := by
  have hnd2 : (finishedOrSeedingIds tasks).Nodup :=
    finishedOrSeedingIds_nodup tasks hnd
  have hndf : ((finishedOrSeedingIds tasks).filter fun x => !prior.contains x).Nodup :=
    hnd2.filter _
  by_cases hm : i ∈ finishedOrSeedingIds tasks ∧ i ∉ prior
  · rw [if_pos hm]
    exact List.count_eq_one_of_mem hndf (by simp [List.mem_filter, hm.1, hm.2])
  · rw [if_neg hm]
    apply List.count_eq_zero_of_not_mem
    intro hmem
    rw [List.mem_filter] at hmem
    exact hm ⟨hmem.1, by simpa using hmem.2⟩

/-! ## Claim C2 -/

/-- C2: on a snapshot passing the completion guard: with no stored
finished-id set, zero notifications fire and the baseline becomes the
snapshot's finished-or-seeding ids; with a stored set and notifications
enabled, exactly one notification fires per id in the new set and not in
the prior set (and none for ids already in the prior set); with
notifications disabled, none fire; and the stored set becomes the new set
in every case. -/
theorem c2_completion_notification_diff {VT : Type} (env : BackgroundEnv VT)
    (t : Nat) (bg : BackgroundState) (s : StoredState VT)
    (hguard : completionGuard t s = true) :
    (bg.finishedTaskIds = none →
      (onStoredStateChangeStep env t bg s).1.completionNotifications = [])
    ∧ (∀ prior : List String, bg.finishedTaskIds = some prior →
        s.settings.notifications.enableCompletionNotifications = true →
        (s.tasks.map DownloadTask.id).Nodup →
        ∀ i : String,
          ((onStoredStateChangeStep env t bg s).1.completionNotifications.map
              Prod.fst).count i
            = if i ∈ finishedOrSeedingIds s.tasks ∧ i ∉ prior then 1 else 0)
    ∧ (∀ prior : List String, bg.finishedTaskIds = some prior →
        s.settings.notifications.enableCompletionNotifications = false →
        (onStoredStateChangeStep env t bg s).1.completionNotifications = [])
    ∧ (onStoredStateChangeStep env t bg s).2.finishedTaskIds
        = some (finishedOrSeedingIds s.tasks) := by
  refine ⟨?_, ?_, ?_, ?_⟩
  · intro h
    simp [onStoredStateChangeStep, completionNotificationStep, hguard, h]
  · intro prior hprior henable hnd i
    have hmap : ((onStoredStateChangeStep env t bg s).1.completionNotifications.map
        Prod.fst)
        = (finishedOrSeedingIds s.tasks).filter fun x => !prior.contains x := by
      simp [onStoredStateChangeStep, completionNotificationStep, hguard, hprior,
        henable, List.map_map, Function.comp]
      exact List.map_id _
    rw [hmap]
    exact count_new_finished s.tasks prior hnd i
  · intro prior hprior henable
    simp [onStoredStateChangeStep, completionNotificationStep, hguard, hprior,
      henable]
  · simp [onStoredStateChangeStep, completionNotificationStep, hguard]

/-- A stored state with two previously-seen finished ids. -/
def bgWithPrior : BackgroundState :=
  { initialBackgroundState with finishedTaskIds := some ["A", "B"] }

/-- A snapshot whose finished-or-seeding ids are `A`, `B`, `C`, passing the
completion guard. -/
def snapshotABC : StoredState Unit :=
  { settings := sampleStored.settings
    tasks :=
      [ { id := "A", title := "alpha", status := "finished" }
      , { id := "B", title := "beta", status := "seeding" }
      , { id := "D", title := "delta", status := "downloading" }
      , { id := "C", title := "gamma", status := "finished" } ]
    taskFetchFailureReason := none
    tasksLastCompletedFetchTimestamp := some 5 }

/-- Witness for C2: with no prior set, zero notifications and the baseline
seeds; with prior `{A, B}` and new `{A, B, C}`, exactly one notification
fires (for `C`, not for `A`), and the stored set becomes the new set. -/
theorem c2_completion_notification_diff_witness :
    completionGuard 0 snapshotABC = true
    ∧ (onStoredStateChangeStep unitEnv 0 initialBackgroundState
        snapshotABC).1.completionNotifications = []
    ∧ (onStoredStateChangeStep unitEnv 0 initialBackgroundState
        snapshotABC).2.finishedTaskIds = some (finishedOrSeedingIds snapshotABC.tasks)
    ∧ ((onStoredStateChangeStep unitEnv 0 bgWithPrior
        snapshotABC).1.completionNotifications.map Prod.fst).count "C" = 1
    ∧ ((onStoredStateChangeStep unitEnv 0 bgWithPrior
        snapshotABC).1.completionNotifications.map Prod.fst).count "A" = 0
    ∧ (onStoredStateChangeStep unitEnv 0 bgWithPrior
        snapshotABC).2.finishedTaskIds = some (finishedOrSeedingIds snapshotABC.tasks) := by
  have hg : completionGuard 0 snapshotABC = true := by decide
  have h1 := c2_completion_notification_diff unitEnv 0 initialBackgroundState
    snapshotABC hg
  have h2 := c2_completion_notification_diff unitEnv 0 bgWithPrior snapshotABC hg
  refine ⟨hg, h1.1 rfl, h1.2.2.2, ?_, ?_, h2.2.2.2⟩
  · exact (h2.2.1 ["A", "B"] rfl rfl (by decide) "C").trans (by decide)
  · exact (h2.2.1 ["A", "B"] rfl rfl (by decide) "A").trans (by decide)

/-! ## Claim C9 -/

/-- C9: on a snapshot failing the completion guard (timestamp absent, or not
strictly newer than process start, or a fetch-failure reason present), no
completion notification fires and the stored finished-id baseline is left
unchanged — in particular it stays undefined if it was undefined. -/
theorem c9_guard_failure_preserves_baseline {VT : Type} (env : BackgroundEnv VT)
    (t : Nat) (bg : BackgroundState) (s : StoredState VT)
    (hguard : completionGuard t s = false) :
    (onStoredStateChangeStep env t bg s).1.completionNotifications = []
    ∧ (onStoredStateChangeStep env t bg s).2.finishedTaskIds = bg.finishedTaskIds := by
  constructor <;>
    simp [onStoredStateChangeStep, completionNotificationStep, hguard]

/-- Witness for C9: a snapshot with no completed-fetch timestamp leaves both
a seeded and an unseeded baseline unchanged and fires nothing. -/
theorem c9_guard_failure_preserves_baseline_witness :
    completionGuard 0 sampleStored = false
    ∧ (onStoredStateChangeStep unitEnv 0 bgWithPrior
        sampleStored).1.completionNotifications = []
    ∧ (onStoredStateChangeStep unitEnv 0 bgWithPrior
        sampleStored).2.finishedTaskIds = bgWithPrior.finishedTaskIds
    ∧ (onStoredStateChangeStep unitEnv 0 initialBackgroundState
        sampleStored).2.finishedTaskIds = initialBackgroundState.finishedTaskIds :=
  ⟨rfl,
    (c9_guard_failure_preserves_baseline unitEnv 0 bgWithPrior sampleStored rfl).1,
    (c9_guard_failure_preserves_baseline unitEnv 0 bgWithPrior sampleStored rfl).2,
    (c9_guard_failure_preserves_baseline unitEnv 0 initialBackgroundState
      sampleStored rfl).2⟩

/-! ## Claim C7 -/

/-- C7: on every snapshot, a failed last fetch renders the disabled icon
with an empty badge and the failure color; otherwise the normal icon is
rendered with the success color, the displayed count is the total count in
`total` mode and the filtered count in `filtered` mode (the two modes are
exhaustive), and the badge text is blank at zero and the decimal string of
the count otherwise. -/
theorem c7_badge_rendering {VT : Type} (env : BackgroundEnv VT) (t : Nat)
    (bg : BackgroundState) (s : StoredState VT) :
    (s.taskFetchFailureReason.isSome = true →
      (onStoredStateChangeStep env t bg s).1.badge =
        { icon := .disabled, badgeText := "", badgeColor := [217, 0, 0, 255] })
    ∧ (s.taskFetchFailureReason = none →
      (onStoredStateChangeStep env t bg s).1.badge.icon = .normal
      ∧ (onStoredStateChangeStep env t bg s).1.badge.badgeColor = [0, 217, 0, 255]
      ∧ (s.settings.badgeDisplayType = .total →
          (onStoredStateChangeStep env t bg s).1.badge.badgeText =
            if s.tasks.length = 0 then "" else toString s.tasks.length)
      ∧ (s.settings.badgeDisplayType = .filtered →
          (onStoredStateChangeStep env t bg s).1.badge.badgeText =
            if (env.filterTasks s.tasks s.settings.visibleTasks).length = 0 then ""
            else toString (env.filterTasks s.tasks s.settings.visibleTasks).length)
      ∧ (s.settings.badgeDisplayType = .total
          ∨ s.settings.badgeDisplayType = .filtered)) := by
  have hb : (onStoredStateChangeStep env t bg s).1.badge = badgeOf env s := by
    simp [onStoredStateChangeStep]
  refine ⟨?_, ?_⟩
  · intro h
    rw [hb]
    simp [badgeOf, h]
  · intro h
    rw [hb]
    refine ⟨by simp [badgeOf, h], by simp [badgeOf, h], ?_, ?_, ?_⟩
    · intro hdt
      simp [badgeOf, h, hdt]
    · intro hdt
      simp [badgeOf, h, hdt]
    · cases hdt : s.settings.badgeDisplayType
      · exact Or.inl rfl
      · exact Or.inr rfl

/-- Snapshot with five tasks, display mode `total`. -/
def snapshotFive : StoredState Unit :=
  { settings := sampleStored.settings
    tasks :=
      [ { id := "1", title := "t1", status := "downloading" }
      , { id := "2", title := "t2", status := "downloading" }
      , { id := "3", title := "t3", status := "paused" }
      , { id := "4", title := "t4", status := "finished" }
      , { id := "5", title := "t5", status := "error" } ]
    taskFetchFailureReason := none
    tasksLastCompletedFetchTimestamp := none }

/-- Snapshot whose last fetch failed. -/
def snapshotFailed : StoredState Unit :=
  { sampleStored with taskFetchFailureReason := some "missing-config" }

/-- Witness for C7: a failed snapshot renders the disabled icon and empty
red badge; five tasks in `total` mode render `"5"`, zero tasks render `""`,
with the green color. -/
theorem c7_badge_rendering_witness :
    snapshotFailed.taskFetchFailureReason.isSome = true
    ∧ (onStoredStateChangeStep unitEnv 0 initialBackgroundState
        snapshotFailed).1.badge =
        { icon := .disabled, badgeText := "", badgeColor := [217, 0, 0, 255] }
    ∧ snapshotFive.taskFetchFailureReason = none
    ∧ snapshotFive.settings.badgeDisplayType = .total
    ∧ (onStoredStateChangeStep unitEnv 0 initialBackgroundState
        snapshotFive).1.badge.badgeText = "5"
    ∧ (onStoredStateChangeStep unitEnv 0 initialBackgroundState
        snapshotFive).1.badge.icon = .normal
    ∧ (onStoredStateChangeStep unitEnv 0 initialBackgroundState
        snapshotFive).1.badge.badgeColor = [0, 217, 0, 255]
    ∧ (onStoredStateChangeStep unitEnv 0 initialBackgroundState
        sampleStored).1.badge.badgeText = "" := by
  have h1 := c7_badge_rendering unitEnv 0 initialBackgroundState snapshotFailed
  have h2 := c7_badge_rendering unitEnv 0 initialBackgroundState snapshotFive
  have h3 := c7_badge_rendering unitEnv 0 initialBackgroundState sampleStored
  refine ⟨rfl, h1.1 rfl, rfl, rfl, ?_, (h2.2 rfl).1, (h2.2 rfl).2.1, ?_⟩
  · exact ((h2.2 rfl).2.2.1 rfl).trans (by decide)
  · exact ((h3.2 rfl).2.2.1 rfl).trans (by decide)

/-! ## Context-menu bulk add (source lines 216–249)

The JavaScript string builtins the handler uses (`split("\n")`, `trim()`,
and — inside `startsWithAnyProtocol` — `startsWith`) are modelled as
structural functions over the string's character list. -/

/-- JS `String.prototype.split("\n")`: split into the (possibly empty)
chunks between newline characters. -/
def jsSplitNewlineAux : List Char → List Char → List String
  | [], acc => [String.mk acc.reverse]
  | c :: cs, acc =>
    if c = '\n' then String.mk acc.reverse :: jsSplitNewlineAux cs []
    else jsSplitNewlineAux cs (c :: acc)

/-- JS `text.split("\n")`. -/
def jsSplitNewline (text : String) : List String :=
  jsSplitNewlineAux text.data []

/-- JS `url.trim()`: strip leading and trailing whitespace. -/
def jsTrim (s : String) : String :=
  String.mk (((s.data.dropWhile Char.isWhitespace).reverse.dropWhile
    Char.isWhitespace).reverse)

/-- JS `url.startsWith(p)`. -/
def jsStartsWith (url p : String) : Bool :=
  p.data.isPrefixOf url.data

/-- Modelled from the spec: `startsWithAnyProtocol(url, protocols)` from
`common/apis/protocols` (not among the examined sources) — true iff the
string starts with a recognized downloadable protocol scheme; the scheme
list (`ALL_DOWNLOADABLE_PROTOCOLS`) is likewise external and is a parameter
below. -/
def startsWithAnyProtocol (url : String) (protocols : List String) : Bool :=
  protocols.any fun p => jsStartsWith url p

/-- The click payload fields the handler reads. -/
structure ClickData where
  linkUrl : Option String
  srcUrl : Option String
  selectionText : Option String

/-- JavaScript truthiness of an optional string payload field (absent or
empty is falsy). -/
def truthy : Option String → Bool
  | none => false
  | some s => !s.isEmpty

/-- What one context-menu click does: dispatch a url list for adding, or
show a failure notification with the given message key. -/
inductive ClickAction where
  | dispatch (urls : List String)
  | notifyFailure (messageKey : String)
deriving DecidableEq, Repr

/-- Selection-text branch (source lines 225–240): split on line breaks,
trim, keep lines starting with a recognized protocol; empty result is a
failure notification, otherwise dispatch. -/
def handleSelectionText (protocols : List String) (text : String) :
    ClickAction :=
  let urls := ((jsSplitNewline text).map fun url => jsTrim url).filter
    fun url => startsWithAnyProtocol url protocols
  if urls.length = 0 then .notifyFailure "Selected_text_is_not_a_valid_URL"
  else .dispatch urls

/-- The `browser.contextMenus.create` onclick handler (source lines
220–248). -/
def contextMenuOnClick (protocols : List String) (data : ClickData) :
    ClickAction :=
  if truthy data.linkUrl then .dispatch [data.linkUrl.getD ""]
  else if truthy data.srcUrl then .dispatch [data.srcUrl.getD ""]
  else if truthy data.selectionText then
    handleSelectionText protocols (data.selectionText.getD "")
  else .notifyFailure "URL_is_empty_or_missing"

theorem truthy_some_of_ne (s : String) (h : s ≠ "") : truthy (some s) = true := by
  have hie : s.isEmpty = false := by
    cases hh : s.isEmpty
    · rfl
    · exact absurd ((String.isEmpty_iff s).mp hh) h
  simp [truthy, hie]

/-! ## Claim C8 -/

/-- C8: on a selection-text click (link and media urls absent), the text is
split on line breaks, each line trimmed, and exactly the lines starting
with a recognized protocol are kept; an empty result shows the
"not a valid URL" failure and dispatches nothing, a non-empty result
dispatches exactly those urls in order. -/
theorem c8_selection_text_split_trim_filter (protocols : List String)
    (data : ClickData) (h1 : truthy data.linkUrl = false)
    (h2 : truthy data.srcUrl = false) (text : String)
    (h3 : data.selectionText = some text) (h4 : text ≠ "") :
    (((jsSplitNewline text).map fun url => jsTrim url).filter
        (fun url => startsWithAnyProtocol url protocols) = [] →
      contextMenuOnClick protocols data =
        .notifyFailure "Selected_text_is_not_a_valid_URL")
    ∧ (((jsSplitNewline text).map fun url => jsTrim url).filter
        (fun url => startsWithAnyProtocol url protocols) ≠ [] →
      contextMenuOnClick protocols data =
        .dispatch (((jsSplitNewline text).map fun url => jsTrim url).filter
          fun url => startsWithAnyProtocol url protocols)) := by
  have htr : truthy (some text) = true := truthy_some_of_ne text h4
  have hcm : contextMenuOnClick protocols data
      = handleSelectionText protocols text := by
    simp [contextMenuOnClick, h1, h2, h3, htr]
  constructor
  · intro h
    rw [hcm]
    simp [handleSelectionText, h]
  · intro h
    rw [hcm]
    simp only [handleSelectionText]
    rw [if_neg (by simpa [List.length_eq_zero] using h)]

/-- Witness for C8: `"http://a\n not-a-url\nftp://b"` with protocols
`{http, ftp}` dispatches exactly `[http://a, ftp://b]`; a selection with no
valid line produces the failure notification. -/
theorem c8_selection_text_split_trim_filter_witness :
    truthy (none : Option String) = false
    ∧ ("http://a\n not-a-url\nftp://b" : String) ≠ ""
    ∧ contextMenuOnClick ["http", "ftp"]
        { linkUrl := none, srcUrl := none
          selectionText := some "http://a\n not-a-url\nftp://b" }
        = .dispatch ["http://a", "ftp://b"]
    ∧ contextMenuOnClick ["http", "ftp"]
        { linkUrl := none, srcUrl := none, selectionText := some "hello world" }
        = .notifyFailure "Selected_text_is_not_a_valid_URL" := by
  have h1 := c8_selection_text_split_trim_filter ["http", "ftp"]
    { linkUrl := none, srcUrl := none
      selectionText := some "http://a\n not-a-url\nftp://b" }
    rfl rfl "http://a\n not-a-url\nftp://b" rfl (by decide)
  have h2 := c8_selection_text_split_trim_filter ["http", "ftp"]
    { linkUrl := none, srcUrl := none, selectionText := some "hello world" }
    rfl rfl "hello world" rfl (by decide)
  refine ⟨rfl, by decide, ?_, ?_⟩
  · exact (h1.2 (by decide)).trans (by decide)
  · exact h2.1 (by decide)

/-! ## Claim C10 -/

/-- C10: a click payload carrying a (truthy) link url dispatches exactly
that single url, unmodified; failing that, a truthy media source url is
dispatched exactly as given; and a payload with none of link url, source
url, or selection text shows the "URL is empty or missing" failure and
dispatches nothing. -/
theorem c10_link_src_dispatched_verbatim (protocols : List String)
    (data : ClickData) :
    (∀ l : String, data.linkUrl = some l → l ≠ "" →
      contextMenuOnClick protocols data = .dispatch [l])
    ∧ (truthy data.linkUrl = false → ∀ u : String, data.srcUrl = some u →
      u ≠ "" → contextMenuOnClick protocols data = .dispatch [u])
    ∧ (truthy data.linkUrl = false → truthy data.srcUrl = false →
      truthy data.selectionText = false →
      contextMenuOnClick protocols data =
        .notifyFailure "URL_is_empty_or_missing") := by
  refine ⟨?_, ?_, ?_⟩
  · intro l hl hne
    have ht : truthy (some l) = true := truthy_some_of_ne l hne
    simp [contextMenuOnClick, hl, ht]
  · intro h1 u hu hne
    have ht : truthy (some u) = true := truthy_some_of_ne u hne
    simp [contextMenuOnClick, h1, hu, ht]
  · intro h1 h2 h3
    simp [contextMenuOnClick, h1, h2, h3]

/-- Witness for C10: a link url that is not even a valid download url is
dispatched verbatim (no trimming, splitting, or protocol filtering); a
media source url likewise; an empty payload notifies failure. -/
theorem c10_link_src_dispatched_verbatim_witness :
    ({ linkUrl := some " bad\nurl ", srcUrl := none,
       selectionText := none : ClickData }).linkUrl = some " bad\nurl "
    ∧ (" bad\nurl " : String) ≠ ""
    ∧ contextMenuOnClick ["http"]
        { linkUrl := some " bad\nurl ", srcUrl := none, selectionText := none }
        = .dispatch [" bad\nurl "]
    ∧ contextMenuOnClick ["http"]
        { linkUrl := none, srcUrl := some "magnet:?xt=abc", selectionText := none }
        = .dispatch ["magnet:?xt=abc"]
    ∧ contextMenuOnClick ["http"]
        { linkUrl := none, srcUrl := none, selectionText := none }
        = .notifyFailure "URL_is_empty_or_missing" :=
  ⟨rfl, by decide,
    (c10_link_src_dispatched_verbatim ["http"]
      { linkUrl := some " bad\nurl ", srcUrl := none, selectionText := none }).1
      " bad\nurl " rfl (by decide),
    (c10_link_src_dispatched_verbatim ["http"]
      { linkUrl := none, srcUrl := some "magnet:?xt=abc",
        selectionText := none }).2.1 rfl "magnet:?xt=abc" rfl (by decide),
    (c10_link_src_dispatched_verbatim ["http"]
      { linkUrl := none, srcUrl := none, selectionText := none }).2.2 rfl rfl rfl⟩

/-! ## Claim C6 -/

/-- C6: when a response is applied at a path `p` present in the tree, a
connection-level failure sets `p`'s children to `Loading-failed` with the
connection-failure translator's message; a protocol-level error sets them to
`Loading-failed` with the code translator's message (in the `FileStation`
domain); a success sets them to the parsed entries — which, under both of
the source's parsers, are nodes whose own children are `Unloaded`.  The
response is consumed as data by a total function, never thrown. -/
theorem c6_response_folded_as_data {CF T : Type} (emcf : CF → String)
    (emc : Nat → String → String) (tree : DirectoryTreeFile) (p : String)
    (parse : T → List DirectoryTreeFile) (n : DirectoryTreeFile)
    (hfind : findNodeByPath tree p = some n) :
    (∀ failure : CF,
      findNodeByPath
        (updateTreeWithResponse emcf emc tree p (.connectionFailure failure) parse) p
        = some (.mk n.name n.path (.failed (emcf failure))))
    ∧ (∀ code : Nat,
      findNodeByPath
        (updateTreeWithResponse emcf emc tree p (.protocolError code) parse) p
        = some (.mk n.name n.path (.failed (emc code "FileStation"))))
    ∧ (∀ data : T,
      findNodeByPath
        (updateTreeWithResponse emcf emc tree p (.success data) parse) p
        = some (.mk n.name n.path (.loaded (parse data))))
    ∧ (∀ entries : List FileEntry,
      findNodeByPath
        (updateTreeWithResponse emcf emc tree p (.success entries)
          parseNestedChildren) p
        = some (.mk n.name n.path
            (.loaded (entries.map fun f => .mk f.name f.path .unloaded))))
    ∧ (∀ entries : List FileEntry,
      findNodeByPath
        (updateTreeWithResponse emcf emc tree p (.success entries)
          parseTopLevelShares) p
        = some (.mk n.name n.path
            (.loaded (entries.map fun d => .mk d.name d.path .unloaded)))) := by
  refine ⟨fun failure => ?_, fun code => ?_, fun data => ?_,
    fun entries => ?_, fun entries => ?_⟩ <;>
    exact find_update_of_find_some tree p _ n hfind

/-- Witness for C6: in a concrete two-level tree, a connection failure, a
protocol error, and a successful listing each set the children of `/photo`
as claimed. -/
theorem c6_response_folded_as_data_witness :
    findNodeByPath
      (DirectoryTreeFile.mk "/" "/" (.loaded [.mk "photo" "/photo" .unloaded]))
      "/photo" = some (.mk "photo" "/photo" .unloaded)
    ∧ findNodeByPath
        (updateTreeWithResponse (fun sfx : String => "conn:" ++ sfx)
          (fun code domain => domain ++ ":" ++ toString code)
          (.mk "/" "/" (.loaded [.mk "photo" "/photo" .unloaded])) "/photo"
          (.connectionFailure "boom") parseNestedChildren) "/photo"
      = some (.mk "photo" "/photo" (.failed "conn:boom"))
    ∧ findNodeByPath
        (updateTreeWithResponse (fun sfx : String => "conn:" ++ sfx)
          (fun code domain => domain ++ ":" ++ toString code)
          (.mk "/" "/" (.loaded [.mk "photo" "/photo" .unloaded])) "/photo"
          (.protocolError 119) parseNestedChildren) "/photo"
      = some (.mk "photo" "/photo" (.failed "FileStation:119"))
    ∧ findNodeByPath
        (updateTreeWithResponse (fun sfx : String => "conn:" ++ sfx)
          (fun code domain => domain ++ ":" ++ toString code)
          (.mk "/" "/" (.loaded [.mk "photo" "/photo" .unloaded])) "/photo"
          (.success [{ name := "x", path := "/photo/x" }]) parseNestedChildren)
        "/photo"
      = some (.mk "photo" "/photo"
          (.loaded [.mk "x" "/photo/x" .unloaded])) := by
  have h := c6_response_folded_as_data (fun sfx : String => "conn:" ++ sfx)
    (fun code domain => domain ++ ":" ++ toString code)
    (.mk "/" "/" (.loaded [.mk "photo" "/photo" .unloaded])) "/photo"
    parseNestedChildren (.mk "photo" "/photo" .unloaded) rfl
  exact ⟨rfl, h.1 "boom", by simpa using h.2.1 119,
    by simpa [parseNestedChildren] using h.2.2.2.1 [{ name := "x", path := "/photo/x" }]⟩
